import Mathlib

/-
  Shallow embedding of src/common/network/NetworkUtils.cpp (OLA).

  The embedding models:
  - ReadNetlinkSocket (lines 314-345): the bounded multi-part receive loop;
  - DefaultRoute (lines 348-523): socket open, dump-request send, receive,
    the netlink route-dump parse loop and the route selection policy;
  - the endian conversion helpers (lines 94-242), with the host byte order
    as an explicit boolean parameter;
  - HostnameFromFQDN / DomainNameFromFQDN (lines 245-259).

  Machine integers are modelled as Nat bit patterns with explicit reductions
  modulo 2^w where C performs a narrowing conversion; C `int` values that can
  be negative are modelled as Int.  Kernel structures (nlmsghdr, rtmsg,
  rtattr) are modelled as records carrying the fields the code reads, and a
  raw response buffer is modelled as the list of the structured messages laid
  out in it, together with the running byte-length bookkeeping the NLMSG_* /
  RTA_* macros perform (sizeof(nlmsghdr) = 16, sizeof(rtmsg) = 12,
  sizeof(rtattr) = 4, NLMSG_SPACE(sizeof(rtmsg)) = 28, 4-byte alignment).
-/

/-- Netlink / rtnetlink constants used by the source (linux/netlink.h,
linux/rtnetlink.h). -/
def NLMSG_ERROR : Nat := 2

def NLMSG_DONE : Nat := 3

def NLM_F_MULTI : Nat := 2

def RTM_NEWROUTE : Nat := 24

def AF_INET : Nat := 2

def RT_TABLE_MAIN : Nat := 254

def RTA_DST : Nat := 1

def RTA_OIF : Nat := 4

def RTA_GATEWAY : Nat := 5

/-- BUFSIZE constant of DefaultRoute (line 353). -/
def BUFSIZE : Nat := 8192

/-- Length of the request envelope built in DefaultRoute (line 367):
NLMSG_LENGTH(sizeof(rtmsg)) = 16 + 12 = 28 bytes. -/
def requestLen : Nat := 28

/-- The C cast `(unsigned int) i` for a 32-bit int value. -/
def uint32 (i : Int) : Nat := (i % (4294967296 : Int)).toNat

/-- NLMSG_ALIGN: round up to a multiple of NLMSG_ALIGNTO = 4. -/
def NLMSG_ALIGN (n : Nat) : Nat := (n + 3) / 4 * 4

/-- RTA_ALIGN: round up to a multiple of RTA_ALIGNTO = 4. -/
def RTA_ALIGN (n : Nat) : Nat := (n + 3) / 4 * 4

/-- The nlmsghdr fields the code reads (length, type, flags, seq, pid). -/
structure NlHdr where
  nlmsg_len : Nat
  nlmsg_type : Nat
  nlmsg_flags : Nat
  nlmsg_seq : Nat
  nlmsg_pid : Nat
deriving DecidableEq, Repr

/-- One datagram delivered by recv on the netlink socket: `ret` is the value
recv would return given sufficient buffer space (the datagram size, or a
negative value for a receive error), and `hdr` is the nlmsghdr at the start
of the received bytes. -/
structure RecvEvent where
  ret : Int
  hdr : NlHdr
deriving DecidableEq, Repr

/-- NLMSG_OK(nlh, (unsigned int) len): len >= sizeof(nlmsghdr) = 16,
nlmsg_len >= 16 and nlmsg_len <= len, with len compared as unsigned. -/
abbrev nlmsgOkH (h : NlHdr) (len : Int) : Prop :=
  16 ≤ uint32 len ∧ 16 ≤ h.nlmsg_len ∧ h.nlmsg_len ≤ uint32 len

/-- ReadNetlinkSocket (lines 314-345).  The socket is modelled by the list of
datagrams recv will deliver; the result is the returned length together with
the number of recv calls performed, or `none` when the list is exhausted while
the loop would call recv again (the real call would block).  Each iteration:
recv reads at most `bufsize - msglen` bytes (a larger netlink datagram is
truncated); a negative recv return, a failed NLMSG_OK check or an NLMSG_ERROR
envelope returns -1; NLMSG_DONE breaks before the length is advanced; the
length is advanced and an absent NLM_F_MULTI flag breaks; the do-while
condition `(seq != seq_req) || (pid != pid_req)` continues the loop exactly
when the fragment's seq/pid do NOT both match the request. -/
def ReadNetlinkSocket : List RecvEvent → Nat → Nat → Nat → Nat → Option (Int × Nat)
  | [], _, _, _, _ => none
  | ev :: rest, bufsize, msglen, seq, pid =>
    let readlen : Int := if ev.ret < 0 then ev.ret else min ev.ret ((bufsize - msglen : Nat) : Int)
    if readlen < 0 then some (-1, 1)
    else if ¬ nlmsgOkH ev.hdr readlen then some (-1, 1)
    else if ev.hdr.nlmsg_type = NLMSG_ERROR then some (-1, 1)
    else if ev.hdr.nlmsg_type = NLMSG_DONE then some ((msglen : Int), 1)
    else
      let msglen2 := msglen + readlen.toNat
      if ev.hdr.nlmsg_flags &&& NLM_F_MULTI = 0 then some ((msglen2 : Int), 1)
      else if ev.hdr.nlmsg_seq = seq ∧ ev.hdr.nlmsg_pid = pid then some ((msglen2 : Int), 1)
      else
        match ReadNetlinkSocket rest bufsize msglen2 seq pid with
        | none => none
        | some (r, c) => some (r, c + 1)

/-- One rtattr record: declared length, type tag, and the 4-byte value at
RTA_DATA (an s_addr in network byte order, or an interface index). -/
structure RtAttr where
  rta_len : Nat
  rta_type : Nat
  rta_data : Nat
deriving DecidableEq, Repr

/-- One envelope-wrapped route message in the response buffer: the nlmsghdr
length, the rtmsg fields the parse loop reads (family and table), and the
rtattr chain in its payload. -/
structure NlRouteMsg where
  nlmsg_len : Nat
  rtm_family : Nat
  rtm_table : Nat
  attrs : List RtAttr
deriving DecidableEq, Repr

/-- NLMSG_OK for the parse loop (line 455), where the remaining signed length
is cast to unsigned for the comparison. -/
abbrev nlmsgOkM (m : NlRouteMsg) (len : Int) : Prop :=
  16 ≤ uint32 len ∧ 16 ≤ m.nlmsg_len ∧ m.nlmsg_len ≤ uint32 len

/-- RTA_OK(rta, len): len >= sizeof(rtattr) = 4, rta_len >= 4 and
rta_len <= len, all signed comparisons (rt_len is an int). -/
abbrev rtaOk (a : RtAttr) (len : Int) : Prop :=
  4 ≤ len ∧ 4 ≤ a.rta_len ∧ (a.rta_len : Int) ≤ len

/-- RTM_PAYLOAD(nl_msg) = nlmsg_len - NLMSG_SPACE(sizeof(rtmsg))
= nlmsg_len - 28, assigned to the signed int rt_len (line 465). -/
def rtmPayload (m : NlRouteMsg) : Int := (m.nlmsg_len : Int) - 28

/-- The loop-carried state of the parse in DefaultRoute (lines 447-449):
routeCount, foundDefaultRoute, and the captured gateway value
(`none` models the freshly allocated, never-written in_addr). -/
structure ParseSt where
  routeCount : Nat
  foundDefaultRoute : Bool
  defaultRouteIp : Option Nat
deriving DecidableEq, Repr

/-- The switch on rta_type (lines 471-496): RTA_OIF increments routeCount;
RTA_GATEWAY captures the gateway value and sets foundDefaultRoute; RTA_DST
(and any other type) only logs and leaves the state unchanged. -/
def attrStep (a : RtAttr) (st : ParseSt) : ParseSt :=
  if a.rta_type = RTA_OIF then { st with routeCount := st.routeCount + 1 }
  else if a.rta_type = RTA_GATEWAY then
    { st with foundDefaultRoute := true, defaultRouteIp := some a.rta_data }
  else st

/-- The inner rtattr loop (lines 467-497): iterate while RTA_OK holds,
advancing rt_len by -RTA_ALIGN(rta_len) at each step. -/
def attrLoop : List RtAttr → Int → ParseSt → ParseSt
  | [], _, st => st
  | a :: rest, len, st =>
    if ¬ rtaOk a len then st
    else attrLoop rest (len - (RTA_ALIGN a.rta_len : Int)) (attrStep a st)

/-- The outer message loop (lines 454-502): iterate while NLMSG_OK holds;
foundDefaultRoute is reset at the top of each iteration (line 459); entries
failing the AF_INET / RT_TABLE_MAIN check are skipped (lines 463-464); after
a matching entry's attribute scan the loop breaks if a gateway was found
(lines 499-500); NLMSG_NEXT advances len by -NLMSG_ALIGN(nlmsg_len). -/
def parseLoop : List NlRouteMsg → Int → ParseSt → ParseSt
  | [], _, st => st
  | m :: rest, len, st =>
    if ¬ nlmsgOkM m len then st
    else
      let st1 : ParseSt := { st with foundDefaultRoute := false }
      if m.rtm_family = AF_INET ∧ m.rtm_table = RT_TABLE_MAIN then
        let st2 := attrLoop m.attrs (rtmPayload m) st1
        if st2.foundDefaultRoute then st2
        else parseLoop rest (len - (NLMSG_ALIGN m.nlmsg_len : Int)) st2
      else parseLoop rest (len - (NLMSG_ALIGN m.nlmsg_len : Int)) st1

/-- The parse-and-select tail of DefaultRoute (lines 447-522) applied to a
filled response buffer of total length `len`: run the parse loop from the
initial state, then the selection policy of lines 507-518 -- the captured
gateway when one was found, the zero address when none was found but
routeCount > 0, and failure (`none`) otherwise. -/
def DefaultRouteFromBuffer (msgs : List NlRouteMsg) (len : Int) : Option Nat :=
  let st := parseLoop msgs len ⟨0, false, none⟩
  if st.foundDefaultRoute then st.defaultRouteIp
  else if 0 < st.routeCount then some 0
  else none

/-- The outcome kinds of a DefaultRoute call: the four failure exits, the
success exit carrying the s_addr written to the output slot, and `blocked`
for a recv that never returns. -/
inductive DRResult where
  | socketError
  | sendError
  | receiveError
  | noRoute
  | blocked
  | success (addr : Nat)
deriving DecidableEq, Repr

/-- A DefaultRoute call outcome: the result, whether a socket was opened, and
whether every opened socket was closed before returning. -/
structure DROutcome where
  result : DRResult
  opened : Bool
  closed : Bool
deriving DecidableEq, Repr

/-- The environment a DefaultRoute call runs against: whether socket()
succeeds, the return value of send(), the datagrams recv will deliver, the
structured decode of the bytes those datagrams place in the buffer, and the
process id. -/
structure NetEnv where
  socketOk : Bool
  sendRet : Int
  evs : List RecvEvent
  msgs : List NlRouteMsg
  pid : Nat
deriving DecidableEq, Repr

/-- DefaultRoute (lines 348-523): open the netlink socket (failure returns
without a socket to close); build the dump request (seq 0, the caller's pid)
and send it, failing when send returns a negative value (lines 373-377);
read the response with ReadNetlinkSocket, failing when it returns a negative
length (lines 441-445); otherwise parse the buffer and apply the selection
policy.  Every exit after the open closes the socket (lines 374, 442, 503). -/
def DefaultRoute (env : NetEnv) : DROutcome :=
  if env.socketOk = false then ⟨DRResult.socketError, false, false⟩
  else if env.sendRet < 0 then ⟨DRResult.sendError, true, true⟩
  else
    match ReadNetlinkSocket env.evs BUFSIZE 0 0 env.pid with
    | none => ⟨DRResult.blocked, true, false⟩
    | some (len, _) =>
      if len < 0 then ⟨DRResult.receiveError, true, true⟩
      else
        match DefaultRouteFromBuffer env.msgs len with
        | some a => ⟨DRResult.success a, true, true⟩
        | none => ⟨DRResult.noRoute, true, true⟩

/-- Byte swap of a 16-bit value computed as ((v & 0xff) << 8) | (v >> 8) on
an unsigned 16-bit operand promoted to int (the ntohs / htons behaviour on a
little-endian host, and the unsigned HostToLittleEndian big-endian branch,
lines 164-169). -/
def byteswap16 (v : Nat) : Nat := (v % 256) * 256 + v / 256 % 256

/-- _ByteSwap (lines 180-185). -/
def _ByteSwap (v : Nat) : Nat :=
  ((v &&& 0x000000ff) <<< 24) |||
  ((v &&& 0x0000ff00) <<< 8) |||
  ((v &&& 0x00ff0000) >>> 8) |||
  ((v &&& 0xff000000) >>> 24)

/-- NetworkToHost for uint16_t (line 99): ntohs, i.e. identity on a
big-endian host and a byte swap on a little-endian host.  The first argument
is IsBigEndian() for the host. -/
def NetworkToHost_u16 (isBE : Bool) (v : Nat) : Nat :=
  if isBE then v % 65536 else byteswap16 (v % 65536)

/-- HostToNetwork for uint16_t (line 134): htons. -/
def HostToNetwork_u16 (isBE : Bool) (v : Nat) : Nat :=
  if isBE then v % 65536 else byteswap16 (v % 65536)

/-- NetworkToHost for uint32_t (line 104): ntohl. -/
def NetworkToHost_u32 (isBE : Bool) (v : Nat) : Nat :=
  if isBE then v % 4294967296 else _ByteSwap (v % 4294967296)

/-- HostToNetwork for uint32_t (line 144): htonl. -/
def HostToNetwork_u32 (isBE : Bool) (v : Nat) : Nat :=
  if isBE then v % 4294967296 else _ByteSwap (v % 4294967296)

/-- NetworkToHost for int16_t (line 114): the int16_t argument is converted
to uint16_t (its 16-bit pattern, which is how int16_t values are represented
here), swapped by ntohs, and the uint16_t result converted back to int16_t
(same pattern). -/
def NetworkToHost_i16 (isBE : Bool) (v : Nat) : Nat :=
  if isBE then v % 65536 else byteswap16 (v % 65536)

/-- HostToNetwork for int16_t (line 139): htons on the converted pattern. -/
def HostToNetwork_i16 (isBE : Bool) (v : Nat) : Nat :=
  if isBE then v % 65536 else byteswap16 (v % 65536)

/-- NetworkToHost for int32_t (line 119): ntohl on the converted pattern. -/
def NetworkToHost_i32 (isBE : Bool) (v : Nat) : Nat :=
  if isBE then v % 4294967296 else _ByteSwap (v % 4294967296)

/-- HostToNetwork for int32_t (line 149): htonl on the converted pattern. -/
def HostToNetwork_i32 (isBE : Bool) (v : Nat) : Nat :=
  if isBE then v % 4294967296 else _ByteSwap (v % 4294967296)

/-- HostToLittleEndian for uint16_t (lines 164-169). -/
def HostToLittleEndian_u16 (isBE : Bool) (v : Nat) : Nat :=
  if isBE then byteswap16 (v % 65536) else v % 65536

/-- LittleEndianToHost for uint16_t (lines 213-218). -/
def LittleEndianToHost_u16 (isBE : Bool) (v : Nat) : Nat :=
  if isBE then byteswap16 (v % 65536) else v % 65536

/-- HostToLittleEndian for uint32_t (lines 187-192). -/
def HostToLittleEndian_u32 (isBE : Bool) (v : Nat) : Nat :=
  if isBE then _ByteSwap (v % 4294967296) else v % 4294967296

/-- LittleEndianToHost for uint32_t (lines 229-234). -/
def LittleEndianToHost_u32 (isBE : Bool) (v : Nat) : Nat :=
  if isBE then _ByteSwap (v % 4294967296) else v % 4294967296

/-- HostToLittleEndian for int32_t (lines 195-200): the int32_t is converted
to uint32_t (same 32-bit pattern), swapped by _ByteSwap and converted back. -/
def HostToLittleEndian_i32 (isBE : Bool) (v : Nat) : Nat :=
  if isBE then _ByteSwap (v % 4294967296) else v % 4294967296

/-- LittleEndianToHost for int32_t (lines 237-242). -/
def LittleEndianToHost_i32 (isBE : Bool) (v : Nat) : Nat :=
  if isBE then _ByteSwap (v % 4294967296) else v % 4294967296

/-- Integer promotion of an int16_t (given by its 16-bit pattern) to a 32-bit
int (given by its 32-bit pattern): sign extension. -/
def sx32 (x : Nat) : Nat := if x % 65536 < 32768 then x % 65536 else x % 65536 + 0xFFFF0000

/-- The C expression `p >> 8` on a 32-bit signed int pattern: arithmetic
shift, propagating the sign bit. -/
def sar8 (p : Nat) : Nat :=
  if p < 0x80000000 then p / 256 else (p / 256) ||| 0xFF000000

/-- HostToLittleEndian for int16_t (lines 172-177): on a big-endian host the
source computes ((value & 0xff) << 8) | (value >> 8) where value is the
int16_t promoted to int (sign extension), with `>>` an arithmetic shift, and
the int result is converted back to int16_t (reduction of the pattern modulo
2^16). -/
def HostToLittleEndian_i16 (isBE : Bool) (x : Nat) : Nat :=
  if isBE then ((((sx32 x) &&& 0xff) <<< 8) ||| sar8 (sx32 x)) % 65536
  else x % 65536

/-- LittleEndianToHost for int16_t (lines 221-226): the same computation as
HostToLittleEndian for int16_t. -/
def LittleEndianToHost_i16 (isBE : Bool) (x : Nat) : Nat :=
  if isBE then ((((sx32 x) &&& 0xff) <<< 8) ||| sar8 (sx32 x)) % 65536
  else x % 65536

/-- find_first_of(".") on a string (lines 246, 255): index of the first dot,
or none (string::npos). -/
def firstDotIdx : List Char → Option Nat
  | [] => none
  | c :: rest => if c = '.' then some 0 else (firstDotIdx rest).map (· + 1)

/-- HostnameFromFQDN (lines 245-250): the whole string when it has no dot,
otherwise substr(0, first_dot). -/
def HostnameFromFQDN (fqdn : List Char) : List Char :=
  match firstDotIdx fqdn with
  | none => fqdn
  | some i => fqdn.take i

/-- DomainNameFromFQDN (lines 253-259): the empty string when there is no
dot, otherwise substr(first_dot + 1). -/
def DomainNameFromFQDN (fqdn : List Char) : List Char :=
  match firstDotIdx fqdn with
  | none => []
  | some i => fqdn.drop (i + 1)

/-- Mark of RTA_DST attributes: replace the payload value of every
destination-address attribute by `v`, keeping length and type. -/
def setDstData (v : Nat) (a : RtAttr) : RtAttr :=
  if a.rta_type = RTA_DST then { a with rta_data := v } else a

/-- Replace the payload of every RTA_DST attribute of a message by `v`. -/
def setDstDataMsg (v : Nat) (m : NlRouteMsg) : NlRouteMsg :=
  { m with attrs := m.attrs.map (setDstData v) }

/-- Replace the payload of every RTA_DST attribute of a buffer by `v`. -/
def setDstDataBuf (v : Nat) (msgs : List NlRouteMsg) : List NlRouteMsg :=
  msgs.map (setDstDataMsg v)

lemma attrLoop_found : ∀ (attrs : List RtAttr) (len : Int) (st : ParseSt),
    (attrLoop attrs len st).foundDefaultRoute = true →
    st.foundDefaultRoute = true ∨ ∃ a ∈ attrs, a.rta_type = RTA_GATEWAY := by
  intro attrs
  induction attrs with
  | nil => intro len st h; exact Or.inl h
  | cons a rest ih =>
    intro len st h
    simp only [attrLoop] at h
    by_cases hok : rtaOk a len
    · rw [if_neg (not_not_intro hok)] at h
      rcases ih _ _ h with h1 | h1
      · unfold attrStep at h1
        by_cases h4 : a.rta_type = RTA_OIF
        · rw [if_pos h4] at h1; exact Or.inl h1
        · rw [if_neg h4] at h1
          by_cases h5 : a.rta_type = RTA_GATEWAY
          · exact Or.inr ⟨a, List.mem_cons_self a rest, h5⟩
          · rw [if_neg h5] at h1; exact Or.inl h1
      · rcases h1 with ⟨b, hb, hbt⟩
        exact Or.inr ⟨b, List.mem_cons_of_mem _ hb, hbt⟩
    · rw [if_pos hok] at h
      exact Or.inl h

lemma parseLoop_found : ∀ (msgs : List NlRouteMsg) (len : Int) (st : ParseSt),
    (parseLoop msgs len st).foundDefaultRoute = true →
    st.foundDefaultRoute = true ∨ ∃ m ∈ msgs, ∃ a ∈ m.attrs, a.rta_type = RTA_GATEWAY := by
  intro msgs
  induction msgs with
  | nil => intro len st h; exact Or.inl h
  | cons m rest ih =>
    intro len st h
    simp only [parseLoop] at h
    by_cases hok : nlmsgOkM m len
    · rw [if_neg (not_not_intro hok)] at h
      by_cases hft : m.rtm_family = AF_INET ∧ m.rtm_table = RT_TABLE_MAIN
      · rw [if_pos hft] at h
        by_cases hf2 : (attrLoop m.attrs (rtmPayload m)
            { st with foundDefaultRoute := false }).foundDefaultRoute = true
        · rcases attrLoop_found _ _ _ hf2 with h1 | h1
          · simp at h1
          · rcases h1 with ⟨a, ha, hat⟩
            exact Or.inr ⟨m, List.mem_cons_self m rest, a, ha, hat⟩
        · rw [if_neg hf2] at h
          rcases ih _ _ h with h1 | h1
          · exact absurd h1 hf2
          · rcases h1 with ⟨m2, hm2, a, ha, hat⟩
            exact Or.inr ⟨m2, List.mem_cons_of_mem _ hm2, a, ha, hat⟩
      · rw [if_neg hft] at h
        rcases ih _ _ h with h1 | h1
        · simp at h1
        · rcases h1 with ⟨m2, hm2, a, ha, hat⟩
          exact Or.inr ⟨m2, List.mem_cons_of_mem _ hm2, a, ha, hat⟩
    · rw [if_pos hok] at h
      exact Or.inl h

lemma parseLoop_nonmatching : ∀ (msgs : List NlRouteMsg) (len : Int) (st : ParseSt),
    (∀ m ∈ msgs, ¬(m.rtm_family = AF_INET ∧ m.rtm_table = RT_TABLE_MAIN)) →
    parseLoop msgs len st = st ∨
      parseLoop msgs len st = { st with foundDefaultRoute := false } := by
  intro msgs
  induction msgs with
  | nil => intro len st _; exact Or.inl rfl
  | cons m rest ih =>
    intro len st hall
    simp only [parseLoop]
    by_cases hok : nlmsgOkM m len
    · rw [if_neg (not_not_intro hok)]
      rw [if_neg (hall m (List.mem_cons_self m rest))]
      have hrest : ∀ m2 ∈ rest, ¬(m2.rtm_family = AF_INET ∧ m2.rtm_table = RT_TABLE_MAIN) :=
        fun m2 hm2 => hall m2 (List.mem_cons_of_mem _ hm2)
      rcases ih (len - (NLMSG_ALIGN m.nlmsg_len : Int)) { st with foundDefaultRoute := false } hrest
        with h1 | h1
      · exact Or.inr h1
      · exact Or.inr h1
    · rw [if_pos hok]
      exact Or.inl rfl

lemma attrStep_setDst (v : Nat) (a : RtAttr) (st : ParseSt) :
    attrStep (setDstData v a) st = attrStep a st := by
  by_cases h : a.rta_type = RTA_DST
  · simp only [setDstData, if_pos h, attrStep]
    simp [h, RTA_DST, RTA_OIF, RTA_GATEWAY]
  · simp only [setDstData, if_neg h]

lemma setDstData_len (v : Nat) (a : RtAttr) : (setDstData v a).rta_len = a.rta_len := by
  unfold setDstData
  split <;> rfl

lemma attrLoop_setDst (v : Nat) : ∀ (attrs : List RtAttr) (len : Int) (st : ParseSt),
    attrLoop (attrs.map (setDstData v)) len st = attrLoop attrs len st := by
  intro attrs
  induction attrs with
  | nil => intro len st; rfl
  | cons a rest ih =>
    intro len st
    have hok : rtaOk (setDstData v a) len = rtaOk a len := by
      simp [rtaOk, setDstData_len]
    simp only [List.map_cons, attrLoop, hok, setDstData_len, attrStep_setDst, ih]

lemma parseLoop_setDst (v : Nat) : ∀ (msgs : List NlRouteMsg) (len : Int) (st : ParseSt),
    parseLoop (msgs.map (setDstDataMsg v)) len st = parseLoop msgs len st := by
  intro msgs
  induction msgs with
  | nil => intro len st; rfl
  | cons m rest ih =>
    intro len st
    have hm : nlmsgOkM (setDstDataMsg v m) len = nlmsgOkM m len := rfl
    have hpay : rtmPayload (setDstDataMsg v m) = rtmPayload m := rfl
    have hal : (setDstDataMsg v m).nlmsg_len = m.nlmsg_len := rfl
    have hfam : (setDstDataMsg v m).rtm_family = m.rtm_family := rfl
    have htab : (setDstDataMsg v m).rtm_table = m.rtm_table := rfl
    have hat : (setDstDataMsg v m).attrs = m.attrs.map (setDstData v) := rfl
    simp only [List.map_cons, parseLoop, hm, hpay, hal, hfam, htab, hat, attrLoop_setDst, ih]

lemma firstDotIdx_none : ∀ (s : List Char), (∀ c ∈ s, c ≠ '.') → firstDotIdx s = none := by
  intro s
  induction s with
  | nil => intro _; rfl
  | cons c rest ih =>
    intro h
    have hc : c ≠ '.' := h c (List.mem_cons_self _ _)
    have hr := ih (fun d hd => h d (List.mem_cons_of_mem _ hd))
    simp only [firstDotIdx, if_neg hc, hr, Option.map_none']

lemma ReadNetlinkSocket_cons_nonneg (ev : RecvEvent) (rest : List RecvEvent)
    (bufsize msglen seq pid : Nat) (h0 : 0 ≤ ev.ret) :
    ReadNetlinkSocket (ev :: rest) bufsize msglen seq pid =
      (if ¬ nlmsgOkH ev.hdr (min ev.ret ((bufsize - msglen : Nat) : Int)) then some (-1, 1)
       else if ev.hdr.nlmsg_type = NLMSG_ERROR then some (-1, 1)
       else if ev.hdr.nlmsg_type = NLMSG_DONE then some ((msglen : Int), 1)
       else if ev.hdr.nlmsg_flags &&& NLM_F_MULTI = 0 then
         some (((msglen + (min ev.ret ((bufsize - msglen : Nat) : Int)).toNat : Nat) : Int), 1)
       else if ev.hdr.nlmsg_seq = seq ∧ ev.hdr.nlmsg_pid = pid then
         some (((msglen + (min ev.ret ((bufsize - msglen : Nat) : Int)).toNat : Nat) : Int), 1)
       else
         match ReadNetlinkSocket rest bufsize
             (msglen + (min ev.ret ((bufsize - msglen : Nat) : Int)).toNat) seq pid with
         | none => none
         | some (r, c) => some (r, c + 1)) := by
  have hret : ¬ ev.ret < 0 := not_lt.mpr h0
  have hmin : ¬ (min ev.ret ((bufsize - msglen : Nat) : Int)) < 0 :=
    not_lt.mpr (le_min h0 (Int.ofNat_nonneg _))
  simp only [ReadNetlinkSocket, if_neg hret, if_neg hmin]

/-- A response-buffer entry: family AF_INET, main table, one gateway
attribute carrying the raw s_addr value g (nlmsg_len 28 + 8 = 36). -/
def gwEntry (g : Nat) : NlRouteMsg := ⟨36, AF_INET, RT_TABLE_MAIN, [⟨8, RTA_GATEWAY, g⟩]⟩

/-- A single-part recv datagram of 36 bytes carrying a route message. -/
def goodEv (p : Nat) : RecvEvent := ⟨36, ⟨36, RTM_NEWROUTE, 0, 0, p⟩⟩

/-- The s_addr bit pattern of the address 192.168.1.1: the network-order
bytes c0 a8 01 01 read as an in-memory 32-bit word on a little-endian
host. -/
def addr_192_168_1_1 : Nat := 0x0101A8C0

/-- C1: for every gateway value g (in particular the s_addr of 192.168.1.1)
and every pid, a DefaultRoute call whose response buffer holds exactly one
IPv4 / main-table route entry with a gateway attribute carrying g returns
success and writes g to the output slot (and closes the socket it opened). -/
theorem c1_gateway_returned (g p : Nat) :
    DefaultRoute ⟨true, 0, [goodEv p], [gwEntry g], p⟩ =
      ⟨DRResult.success g, true, true⟩ := by
  simp only [DefaultRoute, goodEv, gwEntry, ReadNetlinkSocket, DefaultRouteFromBuffer,
    parseLoop, attrLoop, attrStep]
  norm_num [uint32, rtmPayload, NLMSG_ERROR, NLMSG_DONE, NLM_F_MULTI, RTM_NEWROUTE, AF_INET,
    RT_TABLE_MAIN, RTA_DST, RTA_OIF, RTA_GATEWAY, BUFSIZE, RTA_ALIGN, NLMSG_ALIGN]

/-- C2: when no attribute of any entry of the buffer is a gateway attribute
and the parse counted at least one outgoing-interface attribute
(routeCount > 0), DefaultRoute's buffer parse returns success with the zero
address 0.0.0.0, not failure. -/
theorem c2_fallback_zero_address (msgs : List NlRouteMsg) (len : Int)
    (hng : ∀ m ∈ msgs, ∀ a ∈ m.attrs, a.rta_type ≠ RTA_GATEWAY)
    (hrc : 0 < (parseLoop msgs len ⟨0, false, none⟩).routeCount) :
    DefaultRouteFromBuffer msgs len = some 0 := by
  have hf : (parseLoop msgs len ⟨0, false, none⟩).foundDefaultRoute = false := by
    by_contra hb
    have hb2 : (parseLoop msgs len ⟨0, false, none⟩).foundDefaultRoute = true := by
      revert hb
      cases (parseLoop msgs len ⟨0, false, none⟩).foundDefaultRoute <;> simp
    rcases parseLoop_found _ _ _ hb2 with h1 | h1
    · simp at h1
    · rcases h1 with ⟨m, hm, a, ha, hat⟩
      exact hng m hm a ha hat
  simp only [DefaultRouteFromBuffer]
  rw [hf]
  simp [hrc]

/-- A buffer whose only matching entry carries only an interface-index
attribute. -/
def oifBuf : List NlRouteMsg := [⟨36, AF_INET, RT_TABLE_MAIN, [⟨8, RTA_OIF, 3⟩]⟩]

theorem c2_fallback_zero_address_witness : DefaultRouteFromBuffer oifBuf 36 = some 0 :=
  c2_fallback_zero_address oifBuf 36 (by decide) (by decide)

/-- C3: for an empty response buffer (total length 0), or one in which every
entry fails the IPv4-family or main-table check, the parse finds no gateway
and counts no route, and DefaultRoute's buffer parse returns failure. -/
theorem c3_no_route_found (msgs : List NlRouteMsg) (len : Int)
    (h : len = 0 ∨ ∀ m ∈ msgs, ¬(m.rtm_family = AF_INET ∧ m.rtm_table = RT_TABLE_MAIN)) :
    DefaultRouteFromBuffer msgs len = none := by
  have hst : parseLoop msgs len ⟨0, false, none⟩ = ⟨0, false, none⟩ := by
    rcases h with h0 | hall
    · subst h0
      cases msgs with
      | nil => rfl
      | cons m rest =>
        have hnok : ¬ nlmsgOkM m (0 : Int) := fun hok => absurd hok.1 (by decide)
        simp only [parseLoop, if_pos hnok]
    · rcases parseLoop_nonmatching msgs len ⟨0, false, none⟩ hall with h1 | h1
      · exact h1
      · exact h1
  simp only [DefaultRouteFromBuffer, hst]
  rfl

/-- A buffer whose two entries fail the family check and the table check
respectively. -/
def badBuf : List NlRouteMsg :=
  [⟨36, 10, RT_TABLE_MAIN, [⟨8, RTA_GATEWAY, 5⟩]⟩, ⟨36, AF_INET, 200, [⟨8, RTA_OIF, 1⟩]⟩]

theorem c3_no_route_found_witness : DefaultRouteFromBuffer badBuf 72 = none :=
  c3_no_route_found badBuf 72 (Or.inr (by decide))

/-- C8: the value carried by a destination-address attribute (0.0.0.0
included) has no effect on the returned result, and the found-default flag
can only originate from the presence of a gateway attribute: a destination
attribute never by itself marks an entry as the default. -/
theorem c8_dst_no_effect (msgs : List NlRouteMsg) (len : Int) (v : Nat) :
    DefaultRouteFromBuffer (setDstDataBuf v msgs) len = DefaultRouteFromBuffer msgs len ∧
    ((parseLoop msgs len ⟨0, false, none⟩).foundDefaultRoute = true →
      ∃ m ∈ msgs, ∃ a ∈ m.attrs, a.rta_type = RTA_GATEWAY) := by
  constructor
  · simp only [DefaultRouteFromBuffer, setDstDataBuf, parseLoop_setDst]
  · intro hf
    rcases parseLoop_found _ _ _ hf with h1 | h1
    · simp at h1
    · exact h1

/-- A buffer whose matching entry carries a zero destination attribute and a
gateway attribute. -/
def gwBuf : List NlRouteMsg :=
  [⟨44, AF_INET, RT_TABLE_MAIN, [⟨8, RTA_DST, 0⟩, ⟨8, RTA_GATEWAY, 9⟩]⟩]

theorem c8_dst_no_effect_witness :
    DefaultRouteFromBuffer (setDstDataBuf 7 gwBuf) 44 = DefaultRouteFromBuffer gwBuf 44 ∧
    ∃ m ∈ gwBuf, ∃ a ∈ m.attrs, a.rta_type = RTA_GATEWAY :=
  ⟨(c8_dst_no_effect gwBuf 44 7).1, (c8_dst_no_effect gwBuf 44 7).2 (by decide)⟩

/-- C10: a fragment whose envelope type is the end-of-dump sentinel makes
ReadNetlinkSocket break before the accumulated length is advanced, so the
returned byte count never includes the end-of-dump fragment's bytes; with
nothing accumulated before it (msglen = 0, i.e. the first fragment is the
sentinel) the function returns 0. -/
theorem c10_done_not_counted (ev : RecvEvent) (rest : List RecvEvent)
    (bufsize msglen seq pid : Nat) (h0 : 0 ≤ ev.ret)
    (hok : nlmsgOkH ev.hdr (min ev.ret ((bufsize - msglen : Nat) : Int)))
    (hdone : ev.hdr.nlmsg_type = NLMSG_DONE) :
    ReadNetlinkSocket (ev :: rest) bufsize msglen seq pid = some ((msglen : Int), 1) := by
  rw [ReadNetlinkSocket_cons_nonneg ev rest bufsize msglen seq pid h0]
  have herr : ¬ ev.hdr.nlmsg_type = NLMSG_ERROR := by
    rw [hdone]; decide
  rw [if_neg (not_not_intro hok), if_neg herr, if_pos hdone]

/-- A well-formed end-of-dump fragment. -/
def doneEv : RecvEvent := ⟨20, ⟨20, NLMSG_DONE, NLM_F_MULTI, 0, 7⟩⟩

theorem c10_done_not_counted_witness :
    ReadNetlinkSocket [doneEv] 8192 0 0 7 = some (0, 1) :=
  c10_done_not_counted doneEv [] 8192 0 0 7 (by decide) (by decide) (by decide)

/-- C7: ReadNetlinkSocket validates each fragment's envelope before
advancing: a fragment whose NLMSG_OK check fails (for instance because its
declared length exceeds the remaining buffer capacity, which truncates the
read) or whose envelope type is NLMSG_ERROR makes it return the negative
sentinel at once; and in DefaultRoute a negative read result closes the
socket and returns the receive failure. -/
theorem c7_receive_validation :
    (∀ (ev : RecvEvent) (rest : List RecvEvent) (bufsize msglen seq pid : Nat),
        0 ≤ ev.ret →
        (¬ nlmsgOkH ev.hdr (min ev.ret ((bufsize - msglen : Nat) : Int)) ∨
          ev.hdr.nlmsg_type = NLMSG_ERROR) →
        ReadNetlinkSocket (ev :: rest) bufsize msglen seq pid = some (-1, 1))
    ∧ (∀ (env : NetEnv) (r : Int) (c : Nat),
        env.socketOk = true → 0 ≤ env.sendRet →
        ReadNetlinkSocket env.evs BUFSIZE 0 0 env.pid = some (r, c) → r < 0 →
        DefaultRoute env = ⟨DRResult.receiveError, true, true⟩) := by
  constructor
  · intro ev rest bufsize msglen seq pid h0 hbad
    rw [ReadNetlinkSocket_cons_nonneg ev rest bufsize msglen seq pid h0]
    by_cases hok : nlmsgOkH ev.hdr (min ev.ret ((bufsize - msglen : Nat) : Int))
    · rcases hbad with hnok | herr
      · exact absurd hok hnok
      · rw [if_neg (not_not_intro hok), if_pos herr]
    · rw [if_pos hok]
  · intro env r c hs hsend hread hr
    have hns : ¬ env.sendRet < 0 := not_lt.mpr hsend
    simp only [DefaultRoute]
    rw [hs]
    simp [hns, hread, hr]

/-- A fragment whose declared envelope length (36) exceeds the remaining
capacity of 12 bytes: the truncated read fails NLMSG_OK. -/
def capEv : RecvEvent := ⟨36, ⟨36, RTM_NEWROUTE, NLM_F_MULTI, 0, 7⟩⟩

/-- A fragment carrying the explicit protocol-error envelope type. -/
def errEv : RecvEvent := ⟨20, ⟨20, NLMSG_ERROR, NLM_F_MULTI, 0, 7⟩⟩

/-- An environment whose first received fragment is a protocol error. -/
def errEnv : NetEnv := ⟨true, 0, [errEv], [], 7⟩

theorem c7_receive_validation_witness :
    ReadNetlinkSocket [capEv] 8192 8180 0 7 = some (-1, 1) ∧
    DefaultRoute errEnv = ⟨DRResult.receiveError, true, true⟩ :=
  ⟨c7_receive_validation.1 capEv [] 8192 8180 0 7 (by decide) (Or.inl (by decide)),
   c7_receive_validation.2 errEnv (-1) 1 rfl (by decide) (by decide) (by decide)⟩

/-- A valid multi-part data fragment whose seq (0) and pid (7) match a
request with seq 0 and pid 7. -/
def matchEv : RecvEvent := ⟨36, ⟨36, RTM_NEWROUTE, NLM_F_MULTI, 0, 7⟩⟩

/-- C4 counterexample: with two matching multi-part data fragments queued,
the loop stops after consuming only the first -- the do-while condition
exits as soon as seq and pid both match the request -- although that
fragment is not end-of-dump, carries the multi-part flag, and capacity is
not exhausted.  The loop therefore terminates in a case the claim's
"only when (a)/(b)/(c)" excludes. -/
theorem c4_match_terminates_counterexample :
    ReadNetlinkSocket [matchEv, matchEv] 8192 0 0 7 = some (36, 1) ∧
    matchEv.hdr.nlmsg_type ≠ NLMSG_DONE ∧
    matchEv.hdr.nlmsg_flags &&& NLM_F_MULTI ≠ 0 ∧
    matchEv.ret < (BUFSIZE : Int) := by decide

/-- C4 (amended): for a fragment passing validation, neither end-of-dump nor
error, and carrying the multi-part flag: when its seq/pid do not both match
the request it is still consumed into the buffer (the accumulated length
advances by its read length) and the loop continues with the remaining
fragments; when seq and pid both match, the loop terminates after consuming
it. -/
theorem c4_loop_termination (ev : RecvEvent) (rest : List RecvEvent)
    (bufsize msglen seq pid : Nat) (h0 : 0 ≤ ev.ret)
    (hok : nlmsgOkH ev.hdr (min ev.ret ((bufsize - msglen : Nat) : Int)))
    (herr : ev.hdr.nlmsg_type ≠ NLMSG_ERROR)
    (hdone : ev.hdr.nlmsg_type ≠ NLMSG_DONE)
    (hmulti : ev.hdr.nlmsg_flags &&& NLM_F_MULTI ≠ 0) :
    (¬ (ev.hdr.nlmsg_seq = seq ∧ ev.hdr.nlmsg_pid = pid) →
      ReadNetlinkSocket (ev :: rest) bufsize msglen seq pid =
        (ReadNetlinkSocket rest bufsize
            (msglen + (min ev.ret ((bufsize - msglen : Nat) : Int)).toNat) seq pid).map
          (fun rc => (rc.1, rc.2 + 1)))
    ∧ ((ev.hdr.nlmsg_seq = seq ∧ ev.hdr.nlmsg_pid = pid) →
      ReadNetlinkSocket (ev :: rest) bufsize msglen seq pid =
        some (((msglen + (min ev.ret ((bufsize - msglen : Nat) : Int)).toNat : Nat) : Int), 1)) := by
  rw [ReadNetlinkSocket_cons_nonneg ev rest bufsize msglen seq pid h0]
  constructor
  · intro hmm
    rw [if_neg (not_not_intro hok), if_neg herr, if_neg hdone, if_neg hmulti, if_neg hmm]
    cases hrec : ReadNetlinkSocket rest bufsize
        (msglen + (min ev.ret ((bufsize - msglen : Nat) : Int)).toNat) seq pid with
    | none => rfl
    | some rc => cases rc with | mk r c => rfl
  · intro hm
    rw [if_neg (not_not_intro hok), if_neg herr, if_neg hdone, if_neg hmulti, if_pos hm]

/-- A valid multi-part data fragment whose seq (1) mismatches the request
seq (0). -/
def mmEv : RecvEvent := ⟨36, ⟨36, RTM_NEWROUTE, NLM_F_MULTI, 1, 7⟩⟩

theorem c4_loop_termination_witness :
    ReadNetlinkSocket [mmEv, doneEv] 8192 0 0 7 = some (36, 2) := by
  have h := (c4_loop_termination mmEv [doneEv] 8192 0 0 7 (by decide) (by decide) (by decide)
    (by decide) (by decide)).1 (by decide)
  rw [h]
  decide

/-- C6 (amended): DefaultRoute fails with SendError exactly when send
returns a negative value; a short nonnegative write is not detected and the
call proceeds past the send stage. -/
theorem c6_send_error_iff_negative (env : NetEnv) (hs : env.socketOk = true) :
    (env.sendRet < 0 → DefaultRoute env = ⟨DRResult.sendError, true, true⟩)
    ∧ (0 ≤ env.sendRet → (DefaultRoute env).result ≠ DRResult.sendError) := by
  constructor
  · intro hneg
    simp only [DefaultRoute]
    rw [hs]
    simp [hneg]
  · intro hpos
    have hns : ¬ env.sendRet < 0 := not_lt.mpr hpos
    simp only [DefaultRoute]
    rw [hs]
    simp only [if_neg hns]
    rw [if_neg (by simp : ¬ (true = false))]
    cases hread : ReadNetlinkSocket env.evs BUFSIZE 0 0 env.pid with
    | none => simp
    | some lc =>
      cases lc with
      | mk len c =>
        by_cases hlen : len < 0
        · simp [hlen]
        · simp only [if_neg hlen]
          cases hbuf : DefaultRouteFromBuffer env.msgs len with
          | none => simp
          | some a => simp

/-- An environment in which send reports 0 bytes written -- a short write of
the 28-byte request -- and the response then yields a gateway. -/
def shortEnv : NetEnv := ⟨true, 0, [goodEv 7], [gwEntry 1], 7⟩

/-- C6 counterexample: send wrote 0 of the 28 request bytes (a short write),
yet DefaultRoute does not fail with SendError -- the check is only
`send(...) < 0` -- and the call proceeds to success. -/
theorem c6_short_write_counterexample :
    shortEnv.sendRet = 0 ∧ shortEnv.sendRet < (requestLen : Int) ∧
    DefaultRoute shortEnv = ⟨DRResult.success 1, true, true⟩ := by decide

theorem c6_send_error_iff_negative_witness :
    DefaultRoute ⟨true, -1, [], [], 7⟩ = ⟨DRResult.sendError, true, true⟩ ∧
    (DefaultRoute ⟨true, 0, [doneEv], [], 7⟩).result ≠ DRResult.sendError :=
  ⟨(c6_send_error_iff_negative ⟨true, -1, [], [], 7⟩ rfl).1 (by decide),
   (c6_send_error_iff_negative ⟨true, 0, [doneEv], [], 7⟩ rfl).2 (by decide)⟩

/-- C5: the signed 16-bit little-endian conversions are not a round trip on
a big-endian host: HostToLittleEndian maps the int16_t value 255 to the
pattern 0xFF00 (the sign-extending arithmetic shift in
((value & 0xff) << 8) | (value >> 8) floods the high bits), and
LittleEndianToHost maps that to 0xFFFF, the int16_t value -1, not back to
255.  By contrast the ntohs-based signed 16-bit network conversion does
round-trip 255 on a little-endian host. -/
theorem c5_signed16_roundtrip_failure :
    LittleEndianToHost_i16 true (HostToLittleEndian_i16 true 255) = 0xFFFF ∧
    (0xFFFF : Nat) ≠ 255 ∧
    NetworkToHost_i16 false (HostToNetwork_i16 false 255) = 255 := by decide

/-- The example FQDN of the spec. -/
def fqdnExample : List Char := ("foo.bar.example.com").data

/-- Expected hostname part. -/
def hostExpected : List Char := ("foo").data

/-- Expected domain part. -/
def domainExpected : List Char := ("bar.example.com").data

/-- A name containing no dot. -/
def noDotExample : List Char := ("localhost").data

/-- C9: HostnameFromFQDN of foo.bar.example.com is foo, DomainNameFromFQDN
of it is bar.example.com, and for every string containing no dot the
hostname is the whole string and the domain name is empty. -/
theorem c9_fqdn_decomposition :
    HostnameFromFQDN fqdnExample = hostExpected ∧
    DomainNameFromFQDN fqdnExample = domainExpected ∧
    ∀ s : List Char, (∀ c ∈ s, c ≠ '.') →
      HostnameFromFQDN s = s ∧ DomainNameFromFQDN s = [] := by
  refine ⟨by decide, by decide, ?_⟩
  intro s h
  have hn := firstDotIdx_none s h
  constructor
  · simp [HostnameFromFQDN, hn]
  · simp [DomainNameFromFQDN, hn]

theorem c9_fqdn_decomposition_witness :
    HostnameFromFQDN noDotExample = noDotExample ∧ DomainNameFromFQDN noDotExample = [] :=
  c9_fqdn_decomposition.2.2 noDotExample (by decide)
